import Mathlib

/-!
Verification development for the inet protocol models: the VoIP talkspurt
receiver (SimpleVoIPReceiver), the RIP routing module (RIPRouting), and the
SCTP association ASCONF / authentication functions (SCTPAssociation).

Each definition is a shallow embedding of the corresponding C++ entity.
Simulation times are modelled in whole seconds as naturals; byte values are
naturals; machine-word widths are noted where they could matter.
-/

namespace Inet

/-! ## VoIP receiver: TalkspurtInfo (VoIPReceiver.h) -/

/-- Record of one received VoIP packet (class VoIPPacketInfo). -/
structure VoIPPacketInfo where
  packetID : Nat
  creationTime : Nat
  arrivalTime : Nat
  playoutTime : Nat
deriving DecidableEq, Repr

/-- enum TalkspurtInfo::Status. -/
inductive TalkspurtStatus where
  | EMPTY
  | ACTIVE
  | FINISHED
deriving DecidableEq, Repr

/-- class TalkspurtInfo: status, sequential identifier, packet count,
voice duration and the collected packet records. -/
structure TalkspurtInfo where
  status : TalkspurtStatus
  talkspurtID : Nat
  talkspurtNumPackets : Nat
  voiceDuration : Nat
  packets : List VoIPPacketInfo
deriving DecidableEq, Repr

/-- TalkspurtInfo::finishTalkspurt: sets status to FINISHED and clears the
packets collection; no other field is touched. -/
def finishTalkspurt (t : TalkspurtInfo) : TalkspurtInfo :=
  { t with status := TalkspurtStatus.FINISHED, packets := [] }

/-- TalkspurtInfo::isActive: status equals ACTIVE. -/
def isActive (t : TalkspurtInfo) : Bool :=
  decide (t.status = TalkspurtStatus.ACTIVE)

/-! ## RIP routing (RIPRouting.h) -/

/-- enum RIPRoute::RouteType. -/
inductive RIPRouteType where
  | RIP_ROUTE_RTE
  | RIP_ROUTE_STATIC
  | RIP_ROUTE_DEFAULT
  | RIP_ROUTE_REDISTRIBUTE
  | RIP_ROUTE_INTERFACE
deriving DecidableEq, Repr

/-- struct RIPRoute (RIPRouting.h).  The IRoute / InterfaceEntry pointers and
the learn-source address are collaborator references; they are carried as
abstract natural identifiers since no claim inspects them. -/
structure RIPRoute where
  routeId : Nat
  type : RIPRouteType
  ieId : Nat
  fromAddr : Nat
  metric : Int
  tag : Nat
  changed : Bool
  lastUpdateTime : Nat
deriving DecidableEq, Repr

/-- RIP route expiry interval.  The RIPRouting.h comment on struct RIPRoute
fixes it: expiryTime is 180 s after the last update. -/
def routeExpiryTime : Nat := 180

/-- RIP route purge interval.  The RIPRouting.h comment on struct RIPRoute
fixes it: purgeTime is 120 s after expiry. -/
def routePurgeTime : Nat := 120

/-- The expiry deadline of a RIP route: last update time plus 180 s. -/
def expiryDeadline (r : RIPRoute) : Nat :=
  r.lastUpdateTime + routeExpiryTime

/-- The purge deadline of a RIP route: expiry deadline plus 120 s. -/
def purgeDeadline (r : RIPRoute) : Nat :=
  expiryDeadline r + routePurgeTime

/-- Modelled from the spec: the body of RIPRouting::checkRoute is not under
src/ (RIPRouting.h only declares it).  Per its doc comment and spec section
4.1, checkRoute handles expiry and purge lazily: past the purge deadline the
route is purged (removed, nothing returned); past the expiry deadline it is
invalidated (metric set to 16, change flag set) and returned; otherwise it is
returned unchanged. -/
def checkRoute (now : Nat) (r : RIPRoute) : Option RIPRoute :=
  if purgeDeadline r ≤ now then none
  else if expiryDeadline r ≤ now then
    some { r with metric := 16, changed := true }
  else some r

/-- Modelled from the spec: the body of RIPRouting::triggerUpdate is not
under src/ (RIPRouting.h only declares it).  Per its doc comment and spec
section 4.1 it schedules the triggered-update timer with a random delay drawn
uniformly from [1 s, 5 s], and does nothing when the timer is already
scheduled.  The timer is the pending delay (none when not scheduled); the
uniform draw the host RNG would return is passed in as `draw`; the Bool
records whether a timer event was scheduled by this call. -/
def triggerUpdate (draw : Nat) (timer : Option Nat) : Option Nat × Bool :=
  match timer with
  | some t => (some t, false)
  | none => (some draw, true)

/-! ## SCTP association: addresses, chunks, state (SCTPAssociation) -/

/-- IPvXAddress: an IPv4 or IPv6 address.  Only the identity of the address
and its family are observable in the embedded code. -/
structure IPvXAddress where
  host : Nat
  v6 : Bool
deriving DecidableEq, Repr

/-- IPvXAddress::isIPv6. -/
def IPvXAddress.isIPv6 (a : IPvXAddress) : Bool := a.v6

/-- The wildcard address IPvXAddress("0.0.0.0"). -/
def wildcardAddress : IPvXAddress := { host := 0, v6 := false }

/-- ASCONF parameter type ADD_IP_ADDRESS; value 0xC001 per spec section 6
(the enum itself is not under src/). -/
def ADD_IP_ADDRESS : Int := 0xC001

/-- ASCONF parameter type DELETE_IP_ADDRESS; value 0xC002 per spec section 6
(the enum itself is not under src/). -/
def DELETE_IP_ADDRESS : Int := 0xC002

/-- ASCONF parameter type SET_PRIMARY_ADDRESS; value 0xC004 per spec
section 6 (the enum itself is not under src/). -/
def SET_PRIMARY_ADDRESS : Int := 0xC004

/-- Chunk type ASCONF; value 0xC1 per spec section 6. -/
def ASCONF : Nat := 0xC1

/-- Chunk type ASCONF_ACK; value 0x80 per spec section 6. -/
def ASCONF_ACK : Nat := 0x80

/-- Chunk type AUTH.  The numeric value is not under src/ and not in the
spec; no claim depends on it. -/
def AUTH : Nat := 0x0F

/-- SCTP_COMMON_HEADER (bytes).  Modelled from the spec: the constant is not
under src/; no claim depends on its value. -/
def SCTP_COMMON_HEADER : Nat := 12

/-- SCTP_ADD_IP_CHUNK_LENGTH (bytes).  Modelled from the spec: the constant
is not under src/; no claim depends on its value. -/
def SCTP_ADD_IP_CHUNK_LENGTH : Nat := 8

/-- SCTP_ADD_IP_PARAMETER_LENGTH (bytes).  Modelled from the spec: the
constant is not under src/; no claim depends on its value. -/
def SCTP_ADD_IP_PARAMETER_LENGTH : Nat := 8

/-- SCTP_AUTH_CHUNK_LENGTH (bytes).  Modelled from the spec: the constant is
not under src/; no claim depends on its value. -/
def SCTP_AUTH_CHUNK_LENGTH : Nat := 8

/-- SHA_LENGTH (bytes of the HMAC digest).  Modelled from the spec: the
collaborator-defined hash size; no claim depends on its value. -/
def SHA_LENGTH : Nat := 20

/-- One ASCONF TLV parameter.  The three C++ classes SCTPAddIPParameter,
SCTPDeleteIPParameter and SCTPSetPrimaryIPParameter carry the same fields;
parameterType records which one was built. -/
structure SCTPAsconfParameter where
  parameterType : Int
  requestCorrelationId : Nat
  addressParam : IPvXAddress
  bitLength : Nat
deriving DecidableEq, Repr

/-- SCTPAsconfChunk: chunk type, serial number, the address parameter of the
chunk header, the peer verification tag (set only on the NAT path), the TLV
parameter list, and the length field. -/
structure SCTPAsconfChunk where
  chunkType : Nat
  serialNumber : Nat
  addressParam : IPvXAddress
  peerVTag : Option Nat
  params : List SCTPAsconfParameter
  bitLength : Nat
deriving DecidableEq, Repr

/-- SCTPAuthenticationChunk. -/
structure SCTPAuthenticationChunk where
  chunkType : Nat
  sharedKeyId : Nat
  hmacIdentifier : Nat
  hmacOk : Bool
  hmac : List Nat
  bitLength : Nat
deriving DecidableEq, Repr

/-- SCTPAsconfAckChunk. -/
structure SCTPAsconfAckChunk where
  chunkType : Nat
  serialNumber : Nat
  bitLength : Nat
deriving DecidableEq, Repr

/-- A chunk bundled into an SCTPMessage by the embedded functions. -/
inductive SCTPChunk where
  | auth (a : SCTPAuthenticationChunk)
  | asconf (c : SCTPAsconfChunk)
  | asconfAck (c : SCTPAsconfAckChunk)
deriving DecidableEq, Repr

/-- SCTPMessage: common header ports plus the bundled chunks.  A message
built without ports (retransmitAsconf) carries the default 0. -/
structure SCTPMessage where
  srcPort : Nat
  destPort : Nat
  chunks : List SCTPChunk
deriving DecidableEq, Repr

/-- SCTPStateVariables: the association state block.  The declaration is not
under src/; the fields are modelled from the spec (section 3): the ASCONF
outstanding flag, serial counters, the retained last-sent ASCONF chunk, the
local address list, authentication flags, the peer chunk list, and the key
material.  The key containers keyVector and peerKeyVector are byte stores
read by index (a function from index to byte value), with explicit length
fields sizeKeyVector and sizePeerKeyVector; bytes beyond the explicit length
are whatever the store last held. -/
structure SCTPStateVariables where
  asconfOutstanding : Bool
  asconfSn : Nat
  corrIdNum : Nat
  asconfChunk : Option SCTPAsconfChunk
  localAddresses : List IPvXAddress
  auth : Bool
  peerAuth : Bool
  peerChunkList : List Nat
  keyVector : Nat → Nat
  sizeKeyVector : Nat
  peerKeyVector : Nat → Nat
  sizePeerKeyVector : Nat

/-- The association-level fields read by the embedded SCTPAssociation
methods. -/
structure SCTPAssociation where
  localAddr : IPvXAddress
  remoteAddr : IPvXAddress
  localPort : Nat
  remotePort : Nat
  peerVTagValue : Nat
  state : SCTPStateVariables

/-! ## SCTP key comparison (compareRandom, calculateAssocSharedKey) -/

/-- The indices visited by the C loop idiom `for (i = a-1; i > b; i--)`:
a-1, a-2, ..., b+1 in descending order; empty when a ≤ b+1. -/
def descRange (a b : Nat) : List Nat :=
  (List.range (a - 1 - b)).map (fun k => a - 1 - k)

/-- The final loop of SCTPAssociation::compareRandom, over a given
(descending) index list: at the first index where the two bytes differ it
returns false when the own byte is smaller and true when it is larger; when
no visited index distinguishes the vectors it returns true. -/
def cmpLoop (kv pkv : Nat → Nat) : List Nat → Bool
  | [] => true
  | i :: rest =>
      if kv i < pkv i then false
      else if pkv i < kv i then true
      else cmpLoop kv pkv rest

/-- The body of SCTPAssociation::compareRandom with the values the source
obtains from its environment passed explicitly: szK and szP are the values
of `sizeof(state->keyVector)` and `sizeof(state->peerKeyVector)`, and gsize
is the value the uninitialized local variable `size` happens to hold when
the branch assigning it is not taken (when szK = szP the source reads `size`
without ever writing it).  When the sizeof values differ, the excess
high-order bytes of the longer vector (indices strictly between the two
sizes and below the longer one) are scanned first and a non-zero byte
decides the result; then the main loop compares indices size-1 down to 1. -/
def compareRandomCore (kv pkv : Nat → Nat) (szK szP gsize : Nat) : Bool :=
  if szK ≠ szP then
    if szP > szK then
      if (descRange szP szK).any (fun i => pkv i ≠ 0) then false
      else cmpLoop kv pkv (descRange szK 0)
    else
      if (descRange szK szP).any (fun i => kv i ≠ 0) then true
      else cmpLoop kv pkv (descRange szP 0)
  else
    cmpLoop kv pkv (descRange gsize 0)

/-- The common storage size of the two key containers.  Modelled from the
spec (section 9): keyVector and peerKeyVector are byte containers of one
C++ type, so `sizeof` yields the same storage size for both; the exact value
is irrelevant because only the equality of the two sizeof results matters. -/
def keyStorageSize : Nat := 512

/-- SCTPAssociation::compareRandom on the association state.  Both sizeof
results equal keyStorageSize, so the unequal-size branch is dead and the
main loop runs over the indeterminate bound g (the uninitialized local
`size`). -/
def compareRandom (st : SCTPStateVariables) (g : Nat) : Bool :=
  compareRandomCore st.keyVector st.peerKeyVector keyStorageSize keyStorageSize g

/-- The bytes of the own key vector up to its explicit length field. -/
def ownKeyBytes (st : SCTPStateVariables) : List Nat :=
  (List.range st.sizeKeyVector).map st.keyVector

/-- The bytes of the peer key vector up to its explicit length field. -/
def peerKeyBytes (st : SCTPStateVariables) : List Nat :=
  (List.range st.sizePeerKeyVector).map st.peerKeyVector

/-- SCTPAssociation::calculateAssocSharedKey: the sharedKey bytes written by
the two copy loops, as a list of length sizeKeyVector + sizePeerKeyVector.
When compareRandom returns true the own bytes (indices 0 ≤ i <
sizeKeyVector) are stored first and the peer bytes after them; otherwise the
peer bytes come first.  g is the indeterminate value read by compareRandom
(see compareRandomCore). -/
def calculateAssocSharedKey (st : SCTPStateVariables) (g : Nat) : List Nat :=
  if compareRandom st g then ownKeyBytes st ++ peerKeyBytes st
  else peerKeyBytes st ++ ownKeyBytes st

/-- SCTPAssociation::typeInChunkList: membership of the type in the peer's
advertised chunk list. -/
def typeInChunkList (st : SCTPStateVariables) (ty : Nat) : Bool :=
  st.peerChunkList.any (fun x => x = ty)

/-! ## SCTP ASCONF: sendAsconf, retransmitAsconf, createAuthChunk -/

/-- The collaborator inputs read by sendAsconf: getLevel (routing scope of
an address; the function is not under src/), the natFriendly module
parameter, the resolved addAddress module parameter, and the address
getNextAddress(getPath(remoteAddr)) would return. -/
structure SCTPEnv where
  getLevel : IPvXAddress → Nat
  natFriendly : Bool
  addAddress : IPvXAddress
  nextAddressOnPath : IPvXAddress

/-- SCTPAssociation::createAuthChunk: an AUTH chunk with shared-key index 0,
HMAC identifier 1, the ok flag set, and a zeroed digest of SHA_LENGTH
bytes. -/
def createAuthChunk : SCTPAuthenticationChunk :=
  { chunkType := AUTH
    sharedKeyId := 0
    hmacIdentifier := 1
    hmacOk := true
    hmac := List.replicate SHA_LENGTH 0
    bitLength := (SCTP_AUTH_CHUNK_LENGTH + SHA_LENGTH) * 8 }

/-- The NAT-friendly condition of sendAsconf:
getLevel(localAddr)==3 and getLevel(remoteAddr)==4 and the natFriendly
parameter. -/
def natMode (env : SCTPEnv) (assoc : SCTPAssociation) : Bool :=
  decide (env.getLevel assoc.localAddr = 3) &&
  decide (env.getLevel assoc.remoteAddr = 4) && env.natFriendly

/-- The mutable locals of sendAsconf's token loop: the correlation counter
(state->corrIdNum), the parameters added to the chunk so far, the running
chunkLength, state->localAddresses, and targetAddr. -/
structure AsconfBuild where
  corrId : Nat
  params : List SCTPAsconfParameter
  chunkLength : Nat
  localAddresses : List IPvXAddress
  targetAddr : IPvXAddress
deriving DecidableEq

/-- One iteration of sendAsconf's token loop (the switch on atoi(token)).
ADD_IP_ADDRESS: builds an add-address parameter with correlation id
++corrIdNum; on the NAT path its address is the wildcard, addAddress is
pushed onto state->localAddresses (the companion call into sctpMain is an
external-collaborator effect) and targetAddr is re-chosen; otherwise the
address is the resolved addAddress.  DELETE_IP_ADDRESS and
SET_PRIMARY_ADDRESS are analogous (set-primary substitutes the wildcard on
the NAT path); the address-family test adds 20 (IPv6) or 8 (IPv4) bytes.
Any other token value matches no case of the switch and changes nothing. -/
def asconfStep (env : SCTPEnv) (nat remote : Bool) (remoteAddr : IPvXAddress)
    (b : AsconfBuild) (t : Int) : AsconfBuild :=
  if t = ADD_IP_ADDRESS then
    let addr := if nat then wildcardAddress else env.addAddress
    let extra := if addr.isIPv6 then 20 else 8
    let p : SCTPAsconfParameter :=
      { parameterType := ADD_IP_ADDRESS
        requestCorrelationId := b.corrId + 1
        addressParam := addr
        bitLength := (SCTP_ADD_IP_PARAMETER_LENGTH + extra) * 8 }
    { corrId := b.corrId + 1
      params := b.params ++ [p]
      chunkLength := b.chunkLength + SCTP_ADD_IP_PARAMETER_LENGTH + extra
      localAddresses :=
        if nat then b.localAddresses ++ [env.addAddress] else b.localAddresses
      targetAddr :=
        if nat then (if remote then remoteAddr else env.nextAddressOnPath)
        else b.targetAddr }
  else if t = DELETE_IP_ADDRESS then
    let addr := env.addAddress
    let extra := if addr.isIPv6 then 20 else 8
    let p : SCTPAsconfParameter :=
      { parameterType := DELETE_IP_ADDRESS
        requestCorrelationId := b.corrId + 1
        addressParam := addr
        bitLength := (SCTP_ADD_IP_PARAMETER_LENGTH + extra) * 8 }
    { b with
      corrId := b.corrId + 1
      params := b.params ++ [p]
      chunkLength := b.chunkLength + SCTP_ADD_IP_PARAMETER_LENGTH + extra }
  else if t = SET_PRIMARY_ADDRESS then
    let addr := if nat then wildcardAddress else env.addAddress
    let extra := if addr.isIPv6 then 20 else 8
    let p : SCTPAsconfParameter :=
      { parameterType := SET_PRIMARY_ADDRESS
        requestCorrelationId := b.corrId + 1
        addressParam := addr
        bitLength := (SCTP_ADD_IP_PARAMETER_LENGTH + extra) * 8 }
    { b with
      corrId := b.corrId + 1
      params := b.params ++ [p]
      chunkLength := b.chunkLength + SCTP_ADD_IP_PARAMETER_LENGTH + extra }
  else b

/-- The state of sendAsconf's locals when the token loop starts: corrIdNum
and localAddresses from the association state, no parameters yet,
chunkLength = SCTP_ADD_IP_CHUNK_LENGTH plus 20 (IPv6 localAddr) or 8 (IPv4),
targetAddr initialized to remoteAddr. -/
def initialBuild (assoc : SCTPAssociation) : AsconfBuild :=
  { corrId := assoc.state.corrIdNum
    params := []
    chunkLength :=
      SCTP_ADD_IP_CHUNK_LENGTH + (if assoc.localAddr.isIPv6 then 20 else 8)
    localAddresses := assoc.state.localAddresses
    targetAddr := assoc.remoteAddr }

/-- The locals after sendAsconf's token loop has consumed the whole
comma-separated type string; the tokens are its atoi values in order. -/
def asconfLoopResult (env : SCTPEnv) (assoc : SCTPAssociation)
    (tokens : List Int) (remote : Bool) : AsconfBuild :=
  tokens.foldl (asconfStep env (natMode env assoc) remote assoc.remoteAddr)
    (initialBuild assoc)

/-- The ASCONF chunk sendAsconf builds: type ASCONF, serial number
state->asconfSn, the header address parameter (wildcard plus embedded peer
verification tag on the NAT path, localAddr otherwise), the parameters from
the token loop, and the final bit length chunkLength*8. -/
def builtAsconfChunk (env : SCTPEnv) (assoc : SCTPAssociation)
    (tokens : List Int) (remote : Bool) : SCTPAsconfChunk :=
  { chunkType := ASCONF
    serialNumber := assoc.state.asconfSn
    addressParam := if natMode env assoc then wildcardAddress else assoc.localAddr
    peerVTag :=
      if natMode env assoc then some assoc.peerVTagValue else none
    params := (asconfLoopResult env assoc tokens remote).params
    bitLength := (asconfLoopResult env assoc tokens remote).chunkLength * 8 }

/-- SCTPAssociation::sendAsconf.  Guarded by state->asconfOutstanding: when
the flag is set, nothing happens (no chunk, no transmission, no state
change).  Otherwise the ASCONF chunk is built from the token list, an AUTH
chunk is prepended when both auth flags are set, the built chunk is retained
(duplicated) in state->asconfChunk, the message is transmitted to targetAddr
and the flag is raised.  Returns the new association and the transmitted
message with its target, if any. -/
def sendAsconf (env : SCTPEnv) (assoc : SCTPAssociation) (tokens : List Int)
    (remote : Bool) : SCTPAssociation × Option (SCTPMessage × IPvXAddress) :=
  if assoc.state.asconfOutstanding = false then
    ({ assoc with state := { assoc.state with
         asconfChunk := some (builtAsconfChunk env assoc tokens remote)
         asconfOutstanding := true
         corrIdNum := (asconfLoopResult env assoc tokens remote).corrId
         localAddresses :=
           (asconfLoopResult env assoc tokens remote).localAddresses } },
     some ({ srcPort := assoc.localPort
             destPort := assoc.remotePort
             chunks :=
               (if assoc.state.auth && assoc.state.peerAuth
                then [SCTPChunk.auth createAuthChunk] else [])
               ++ [SCTPChunk.asconf (builtAsconfChunk env assoc tokens remote)] },
           (asconfLoopResult env assoc tokens remote).targetAddr))
  else (assoc, none)

/-- SCTPAssociation::retransmitAsconf: duplicates the retained chunk
state->asconfChunk, reasserts its chunk type (ASCONF) and bit length,
optionally prepends an AUTH chunk, and sends the message (no ports are set
on the retransmission message).  The association state is not modified.
When no chunk is retained the source would dereference a null pointer; the
embedding returns no message in that case. -/
def retransmitAsconf (assoc : SCTPAssociation) :
    SCTPAssociation × Option SCTPMessage :=
  match assoc.state.asconfChunk with
  | none => (assoc, none)
  | some c =>
      (assoc,
       some { srcPort := 0
              destPort := 0
              chunks :=
                (if assoc.state.auth && assoc.state.peerAuth
                 then [SCTPChunk.auth createAuthChunk] else [])
                ++ [SCTPChunk.asconf { c with chunkType := ASCONF }] })

/-- SCTPAssociation::createAsconfAckChunk: echoes the given serial
number. -/
def createAsconfAckChunk (serialNumber : Nat) : SCTPAsconfAckChunk :=
  { chunkType := ASCONF_ACK
    serialNumber := serialNumber
    bitLength := SCTP_ADD_IP_CHUNK_LENGTH * 8 }

/-- The ASCONF chunks bundled in a message, in order. -/
def asconfChunksOf (m : SCTPMessage) : List SCTPAsconfChunk :=
  m.chunks.filterMap (fun c =>
    match c with
    | SCTPChunk.asconf a => some a
    | _ => none)

/-- The token values sendAsconf's switch recognizes. -/
def isAsconfChangeType (t : Int) : Bool :=
  decide (t = ADD_IP_ADDRESS) || decide (t = DELETE_IP_ADDRESS) ||
  decide (t = SET_PRIMARY_ADDRESS)

/-- The comparison the specification describes for compareRandom (spec
sections 4.2 and 9), over the explicit key-vector length fields: when the
lengths differ, the excess high-order bytes of the longer vector (the
indices from the shorter length up to the longer length minus one) decide
outright when one of them is non-zero (peer longer yields false, own longer
yields true); otherwise the common prefix is compared byte-by-byte from the
most significant end all the way down to index 0, equal prefixes comparing
as true. -/
def compareRandomSpec (kv pkv : Nat → Nat) (szK szP : Nat) : Bool :=
  if szP > szK then
    if ((List.range (szP - szK)).map (fun k => szK + k)).any
        (fun i => pkv i ≠ 0) then false
    else cmpLoop kv pkv ((List.range szK).map (fun k => szK - 1 - k))
  else if szK > szP then
    if ((List.range (szK - szP)).map (fun k => szP + k)).any
        (fun i => kv i ≠ 0) then true
    else cmpLoop kv pkv ((List.range szP).map (fun k => szP - 1 - k))
  else cmpLoop kv pkv ((List.range szK).map (fun k => szK - 1 - k))

/-! ## Helper lemmas -/

theorem mem_descRange {a b i : Nat} (h : i ∈ descRange a b) : b < i ∧ i < a := by
  unfold descRange at h
  simp only [List.mem_map, List.mem_range] at h
  obtain ⟨k, hk, rfl⟩ := h
  omega

theorem cmpLoop_of_agree (kv pkv : Nat → Nat) :
    ∀ l : List Nat, (∀ i ∈ l, kv i = pkv i) → cmpLoop kv pkv l = true := by
  intro l
  induction l with
  | nil => intro _; rfl
  | cons i rest ih =>
      intro h
      have hi : kv i = pkv i := h i (List.mem_cons_self i rest)
      have h1 : ¬ kv i < pkv i := by omega
      have h2 : ¬ pkv i < kv i := by omega
      simp only [cmpLoop, if_neg h1, if_neg h2]
      exact ih (fun j hj => h j (List.mem_cons_of_mem i hj))

theorem cmpLoop_congr (kv pkv kv2 pkv2 : Nat → Nat) :
    ∀ l : List Nat, (∀ i ∈ l, kv i = kv2 i ∧ pkv i = pkv2 i) →
    cmpLoop kv pkv l = cmpLoop kv2 pkv2 l := by
  intro l
  induction l with
  | nil => intro _; rfl
  | cons i rest ih =>
      intro h
      have hi := h i (List.mem_cons_self i rest)
      simp only [cmpLoop, hi.1, hi.2]
      by_cases h1 : kv2 i < pkv2 i
      · simp only [if_pos h1]
      · simp only [if_neg h1]
        by_cases h2 : pkv2 i < kv2 i
        · simp only [if_pos h2]
        · simp only [if_neg h2]
          exact ih (fun j hj => h j (List.mem_cons_of_mem i hj))

theorem compareRandom_eq_main (st : SCTPStateVariables) (g : Nat) :
    compareRandom st g =
    cmpLoop st.keyVector st.peerKeyVector (descRange g 0) := by
  unfold compareRandom compareRandomCore
  simp

/-! ## Claims -/

/-- C10: finishTalkspurt sets status to FINISHED and empties the packets
collection, leaves talkspurtID, talkspurtNumPackets and voiceDuration
unchanged, and isActive is false afterwards. -/
theorem finishTalkspurt_frame (t : TalkspurtInfo) :
    (finishTalkspurt t).status = TalkspurtStatus.FINISHED ∧
    (finishTalkspurt t).packets = [] ∧
    (finishTalkspurt t).talkspurtID = t.talkspurtID ∧
    (finishTalkspurt t).talkspurtNumPackets = t.talkspurtNumPackets ∧
    (finishTalkspurt t).voiceDuration = t.voiceDuration ∧
    isActive (finishTalkspurt t) = false := by
  simp [finishTalkspurt, isActive]

/-- C5: for every RIP route the purge deadline is the expiry deadline plus
120 s and the expiry deadline is the last-update time plus 180 s, and
checkRoute never returns a route whose purge deadline has passed (it removes
the route instead). -/
theorem checkRoute_expiry_ordering (r : RIPRoute) (now : Nat)
    (h : purgeDeadline r < now) :
    purgeDeadline r = expiryDeadline r + 120 ∧
    expiryDeadline r = r.lastUpdateTime + 180 ∧
    checkRoute now r = none := by
  refine ⟨rfl, rfl, ?_⟩
  unfold checkRoute
  rw [if_pos (Nat.le_of_lt h)]

/-- Witness for C5 at a concrete route and time. -/
theorem checkRoute_expiry_ordering_witness :
    purgeDeadline
        { routeId := 0, type := RIPRouteType.RIP_ROUTE_RTE, ieId := 0,
          fromAddr := 0, metric := 2, tag := 0, changed := false,
          lastUpdateTime := 10 } =
      expiryDeadline
        { routeId := 0, type := RIPRouteType.RIP_ROUTE_RTE, ieId := 0,
          fromAddr := 0, metric := 2, tag := 0, changed := false,
          lastUpdateTime := 10 } + 120 ∧
    expiryDeadline
        { routeId := 0, type := RIPRouteType.RIP_ROUTE_RTE, ieId := 0,
          fromAddr := 0, metric := 2, tag := 0, changed := false,
          lastUpdateTime := 10 } = 10 + 180 ∧
    checkRoute 311
        { routeId := 0, type := RIPRouteType.RIP_ROUTE_RTE, ieId := 0,
          fromAddr := 0, metric := 2, tag := 0, changed := false,
          lastUpdateTime := 10 } = none :=
  checkRoute_expiry_ordering
    { routeId := 0, type := RIPRouteType.RIP_ROUTE_RTE, ieId := 0,
      fromAddr := 0, metric := 2, tag := 0, changed := false,
      lastUpdateTime := 10 } 311 (by decide)

/-- C6: two triggerUpdate calls before the timer fires schedule exactly one
timer event: the first call (timer unscheduled) schedules one, the second
leaves the pending timer untouched and schedules nothing; a pending timer is
never rescheduled; and the delay of the single scheduled event is the
uniform [1 s, 5 s] draw, so it lies in [1 s, 5 s] whenever the draw does. -/
theorem triggerUpdate_idempotent (d1 d2 : Nat) (h1 : 1 ≤ d1) (h5 : d1 ≤ 5) :
    triggerUpdate d1 none = (some d1, true) ∧
    triggerUpdate d2 (triggerUpdate d1 none).1 = (some d1, false) ∧
    (∀ t, triggerUpdate d2 (some t) = (some t, false)) ∧
    (∃ d, (triggerUpdate d1 none).1 = some d ∧ 1 ≤ d ∧ d ≤ 5) := by
  exact ⟨rfl, rfl, fun t => rfl, d1, rfl, h1, h5⟩

/-- Witness for C6 at concrete draws. -/
theorem triggerUpdate_idempotent_witness :
    triggerUpdate 3 none = (some 3, true) ∧
    triggerUpdate 4 (triggerUpdate 3 none).1 = (some 3, false) ∧
    triggerUpdate 4 (some 7) = (some 7, false) ∧
    (∃ d, (triggerUpdate 3 none).1 = some d ∧ 1 ≤ d ∧ d ≤ 5) := by
  have h := triggerUpdate_idempotent 3 4 (by decide) (by decide)
  exact ⟨h.1, h.2.1, h.2.2.1 7, h.2.2.2⟩

/-- A state block with neutral ASCONF and authentication fields, used to
build concrete key-comparison states. -/
def baseState : SCTPStateVariables :=
  { asconfOutstanding := false, asconfSn := 0, corrIdNum := 0,
    asconfChunk := none, localAddresses := [], auth := false,
    peerAuth := false, peerChunkList := [],
    keyVector := fun _ => 0, sizeKeyVector := 0,
    peerKeyVector := fun _ => 0, sizePeerKeyVector := 0 }

/-- Key vector A of the C1 counterexample: the single byte 1. -/
def keyA : Nat → Nat := fun i => if i = 0 then 1 else 0

/-- Key vector B of the C1 counterexample: the single byte 2. -/
def keyB : Nat → Nat := fun i => if i = 0 then 2 else 0

/-- The endpoint holding (keyVector = A, peerKeyVector = B), both of
length 1. -/
def endpointOneState : SCTPStateVariables :=
  { baseState with
    keyVector := keyA
    sizeKeyVector := 1
    peerKeyVector := keyB
    sizePeerKeyVector := 1 }

/-- The opposite endpoint, holding (keyVector = B, peerKeyVector = A). -/
def endpointTwoState : SCTPStateVariables :=
  { baseState with
    keyVector := keyB
    sizeKeyVector := 1
    peerKeyVector := keyA
    sizePeerKeyVector := 1 }

/-- C1: shared-key derivation is NOT symmetric.  With key vectors A = [1]
(local) and B = [2] (peer), compareRandom compares only byte indices ≥ 1
(where both vectors are zero) and returns true at both endpoints, whatever
value g the uninitialized comparison bound happens to hold, so each endpoint
concatenates its own vector first: one endpoint derives [1, 2] and the other
[2, 1], which differ. -/
theorem calculateAssocSharedKey_asymmetric (g1 g2 : Nat) :
    calculateAssocSharedKey endpointOneState g1 = [1, 2] ∧
    calculateAssocSharedKey endpointTwoState g2 = [2, 1] ∧
    ([1, 2] : List Nat) ≠ [2, 1] := by
  have hagree : ∀ i, 0 < i → keyA i = keyB i := by
    intro i hi
    have hne : ¬ i = 0 := by omega
    simp [keyA, keyB, hne]
  have h1 : compareRandom endpointOneState g1 = true := by
    rw [compareRandom_eq_main]
    exact cmpLoop_of_agree _ _ _ (fun i hi => hagree i (mem_descRange hi).1)
  have h2 : compareRandom endpointTwoState g2 = true := by
    rw [compareRandom_eq_main]
    exact cmpLoop_of_agree _ _ _
      (fun i hi => (hagree i (mem_descRange hi).1).symm)
  refine ⟨?_, ?_, by decide⟩
  · unfold calculateAssocSharedKey
    rw [h1]
    rfl
  · unfold calculateAssocSharedKey
    rw [h2]
    rfl

/-- C9: compareRandom never depends on byte 0 of either key vector, since
its comparison loop stops at index 1; two states that agree everywhere above
index 0 compare identically, and when the own and peer vectors agree at
every index from 1 upward the result is true. -/
theorem compareRandom_ignores_byte_zero (st st2 : SCTPStateVariables)
    (g : Nat)
    (hk : ∀ i, 0 < i → st.keyVector i = st2.keyVector i)
    (hp : ∀ i, 0 < i → st.peerKeyVector i = st2.peerKeyVector i) :
    compareRandom st g = compareRandom st2 g ∧
    ((∀ i, 0 < i → st.keyVector i = st.peerKeyVector i) →
      compareRandom st g = true) := by
  constructor
  · rw [compareRandom_eq_main, compareRandom_eq_main]
    exact cmpLoop_congr _ _ _ _ _
      (fun i hi =>
        ⟨hk i (mem_descRange hi).1, hp i (mem_descRange hi).1⟩)
  · intro hag
    rw [compareRandom_eq_main]
    exact cmpLoop_of_agree _ _ _ (fun i hi => hag i (mem_descRange hi).1)

/-- A state whose vectors agree above index 0 but differ at index 0. -/
def byteZeroStateOne : SCTPStateVariables :=
  { baseState with
    keyVector := fun _ => 5
    sizeKeyVector := 2
    peerKeyVector := fun i => if i = 0 then 9 else 5
    sizePeerKeyVector := 2 }

/-- byteZeroStateOne with both index-0 bytes changed. -/
def byteZeroStateTwo : SCTPStateVariables :=
  { baseState with
    keyVector := fun i => if i = 0 then 8 else 5
    sizeKeyVector := 2
    peerKeyVector := fun _ => 5
    sizePeerKeyVector := 2 }

/-- Witness for C9 at two concrete states differing only at index 0. -/
theorem compareRandom_ignores_byte_zero_witness :
    compareRandom byteZeroStateOne 4 = compareRandom byteZeroStateTwo 4 ∧
    compareRandom byteZeroStateOne 4 = true := by
  have h := compareRandom_ignores_byte_zero byteZeroStateOne byteZeroStateTwo 4
    (fun i hi => by
      have hne : ¬ i = 0 := by omega
      simp [byteZeroStateOne, byteZeroStateTwo, hne])
    (fun i hi => by
      have hne : ¬ i = 0 := by omega
      simp [byteZeroStateOne, byteZeroStateTwo, hne])
  exact ⟨h.1, h.2 (fun i hi => by
    have hne : ¬ i = 0 := by omega
    simp [byteZeroStateOne, hne])⟩

/-- The own key vector of the C3 failing input: explicit length 1, byte 5 at
index 0, and a residual byte 7 left in its storage at index 1. -/
def keyC3own : Nat → Nat := fun i => if i = 0 then 5 else if i = 1 then 7 else 0

/-- The peer key vector of the C3 failing input: explicit length 2, bytes
[6, 7]. -/
def keyC3peer : Nat → Nat := fun i => if i = 0 then 6 else if i = 1 then 7 else 0

/-- The C3 failing input: the explicit key-vector length fields are 1 (own)
and 2 (peer); the peer vector is longer and its excess high-order byte (7 at
index 1) is non-zero. -/
def residualState : SCTPStateVariables :=
  { baseState with
    keyVector := keyC3own
    sizeKeyVector := 1
    peerKeyVector := keyC3peer
    sizePeerKeyVector := 2 }

/-- C3: compareRandom does NOT compare over the explicit key-vector length
fields.  On the residualState input the claimed comparison (over explicit
lengths sizeKeyVector = 1 and sizePeerKeyVector = 2; the peer vector longer
with its excess byte non-zero) yields false; the code, which takes both
sizes from sizeof on two same-typed containers (so equal), sees the vectors
agree at every storage index from 1 upward and returns true, whatever value
g the uninitialized comparison bound holds. -/
theorem compareRandom_uses_storage_size :
    (∀ g, compareRandom residualState g = true) ∧
    compareRandomSpec residualState.keyVector residualState.peerKeyVector
      residualState.sizeKeyVector residualState.sizePeerKeyVector = false := by
  constructor
  · intro g
    rw [compareRandom_eq_main]
    apply cmpLoop_of_agree
    intro i hi
    have h0 := (mem_descRange hi).1
    have hne : ¬ i = 0 := by omega
    show keyC3own i = keyC3peer i
    simp [keyC3own, keyC3peer, hne]
  · decide

/-! ## ASCONF loop lemmas -/

theorem asconfStep_cases (env : SCTPEnv) (nat remote : Bool)
    (ra : IPvXAddress) (b : AsconfBuild) (t : Int) :
    asconfStep env nat remote ra b t = b ∨
    ∃ p : SCTPAsconfParameter,
      p.requestCorrelationId = b.corrId + 1 ∧
      (asconfStep env nat remote ra b t).params = b.params ++ [p] ∧
      (asconfStep env nat remote ra b t).corrId = b.corrId + 1 := by
  unfold asconfStep
  by_cases h1 : t = ADD_IP_ADDRESS
  · right
    rw [if_pos h1]
    exact ⟨_, rfl, rfl, rfl⟩
  · rw [if_neg h1]
    by_cases h2 : t = DELETE_IP_ADDRESS
    · right
      rw [if_pos h2]
      exact ⟨_, rfl, rfl, rfl⟩
    · rw [if_neg h2]
      by_cases h3 : t = SET_PRIMARY_ADDRESS
      · right
        rw [if_pos h3]
        exact ⟨_, rfl, rfl, rfl⟩
      · rw [if_neg h3]
        left
        rfl

theorem asconfStep_skip (env : SCTPEnv) (nat remote : Bool)
    (ra : IPvXAddress) (b : AsconfBuild) (t : Int)
    (h : isAsconfChangeType t = false) :
    asconfStep env nat remote ra b t = b := by
  simp only [isAsconfChangeType, Bool.or_eq_false_iff,
    decide_eq_false_iff_not] at h
  unfold asconfStep
  rw [if_neg h.1.1, if_neg h.1.2, if_neg h.2]

theorem foldl_asconfStep_filter (env : SCTPEnv) (nat remote : Bool)
    (ra : IPvXAddress) :
    ∀ (ts : List Int) (b : AsconfBuild),
    List.foldl (asconfStep env nat remote ra) b ts
      = List.foldl (asconfStep env nat remote ra) b
          (ts.filter isAsconfChangeType) := by
  intro ts
  induction ts with
  | nil => intro b; rfl
  | cons t rest ih =>
      intro b
      by_cases h : isAsconfChangeType t = true
      · rw [List.filter_cons_of_pos h, List.foldl_cons, List.foldl_cons]
        exact ih _
      · have hb : isAsconfChangeType t = false := by
          revert h; cases isAsconfChangeType t <;> simp
        rw [List.filter_cons_of_neg (by simp [hb]), List.foldl_cons,
          asconfStep_skip env nat remote ra b t hb]
        exact ih b

theorem asconfLoop_invariant (env : SCTPEnv) (nat remote : Bool)
    (ra : IPvXAddress) :
    ∀ (ts : List Int) (b : AsconfBuild),
    (List.foldl (asconfStep env nat remote ra) b ts).corrId + b.params.length
      = b.corrId
        + (List.foldl (asconfStep env nat remote ra) b ts).params.length ∧
    b.corrId ≤ (List.foldl (asconfStep env nat remote ra) b ts).corrId ∧
    (∀ p ∈ (List.foldl (asconfStep env nat remote ra) b ts).params,
      p ∈ b.params ∨
      (b.corrId < p.requestCorrelationId ∧
        p.requestCorrelationId
          ≤ (List.foldl (asconfStep env nat remote ra) b ts).corrId)) ∧
    (((b.params.map fun p => p.requestCorrelationId).Pairwise (· < ·) ∧
      (∀ p ∈ b.params, p.requestCorrelationId ≤ b.corrId)) →
     (((List.foldl (asconfStep env nat remote ra) b ts).params.map
         fun p => p.requestCorrelationId).Pairwise (· < ·) ∧
      (∀ p ∈ (List.foldl (asconfStep env nat remote ra) b ts).params,
        p.requestCorrelationId
          ≤ (List.foldl (asconfStep env nat remote ra) b ts).corrId))) := by
  intro ts
  induction ts with
  | nil =>
      intro b
      exact ⟨rfl, Nat.le_refl _, fun p hp => Or.inl hp, fun h => h⟩
  | cons t rest ih =>
      intro b
      rw [List.foldl_cons]
      rcases asconfStep_cases env nat remote ra b t with heq | ⟨p, hp1, hp2, hp3⟩
      · rw [heq]
        exact ih b
      · obtain ⟨ih1, ih2, ih3, ih4⟩ := ih (asconfStep env nat remote ra b t)
        have hlen : (asconfStep env nat remote ra b t).params.length
            = b.params.length + 1 := by
          rw [hp2, List.length_append, List.length_singleton]
        refine ⟨by omega, by omega, ?_, ?_⟩
        · intro q hq
          rcases ih3 q hq with hmem | ⟨hlt, hle⟩
          · rw [hp2] at hmem
            rcases List.mem_append.mp hmem with hl | hr
            · exact Or.inl hl
            · have hqp : q = p := by simpa using hr
              refine Or.inr ⟨?_, ?_⟩
              · rw [hqp, hp1]; omega
              · rw [hqp, hp1, ← hp3]; exact ih2
          · exact Or.inr ⟨by omega, hle⟩
        · intro hb
          apply ih4
          constructor
          · rw [hp2, List.map_append, List.pairwise_append]
            refine ⟨hb.1, by simp, ?_⟩
            intro a ha c hc
            simp only [List.map_cons, List.map_nil,
              List.mem_singleton] at hc
            rcases List.mem_map.mp ha with ⟨q, hq, rfl⟩
            have := hb.2 q hq
            rw [hc, hp1]
            omega
          · intro q hq
            rw [hp2] at hq
            rcases List.mem_append.mp hq with hl | hr
            · rw [hp3]
              exact Nat.le_trans (hb.2 q hl) (Nat.le_succ _)
            · have hqp : q = p := by simpa using hr
              rw [hqp, hp1, hp3]

theorem asconfLoopResult_filter (env : SCTPEnv) (assoc : SCTPAssociation)
    (tokens : List Int) (remote : Bool) :
    asconfLoopResult env assoc tokens remote
      = asconfLoopResult env assoc (tokens.filter isAsconfChangeType)
          remote := by
  unfold asconfLoopResult
  exact foldl_asconfStep_filter env (natMode env assoc) remote
    assoc.remoteAddr tokens (initialBuild assoc)

theorem builtAsconfChunk_filter (env : SCTPEnv) (assoc : SCTPAssociation)
    (tokens : List Int) (remote : Bool) :
    builtAsconfChunk env assoc tokens remote
      = builtAsconfChunk env assoc (tokens.filter isAsconfChangeType)
          remote := by
  unfold builtAsconfChunk
  rw [asconfLoopResult_filter]

theorem asconfChunksOf_authPrefix (b : Bool) (c : SCTPAsconfChunk)
    (sp dp : Nat) :
    asconfChunksOf
      { srcPort := sp, destPort := dp,
        chunks := (if b then [SCTPChunk.auth createAuthChunk] else [])
          ++ [SCTPChunk.asconf c] } = [c] := by
  cases b <;> rfl

/-- C2: when asconfOutstanding is true, sendAsconf transmits nothing and
changes nothing (the association, with its corrIdNum, localAddresses and
retained asconfChunk, is returned untouched); when it is false, sendAsconf
builds and transmits exactly one ASCONF chunk and raises
asconfOutstanding. -/
theorem sendAsconf_mutual_exclusion (env : SCTPEnv) (assoc : SCTPAssociation)
    (tokens : List Int) (remote : Bool) :
    (assoc.state.asconfOutstanding = true →
      sendAsconf env assoc tokens remote = (assoc, none)) ∧
    (assoc.state.asconfOutstanding = false →
      (sendAsconf env assoc tokens remote).1.state.asconfOutstanding = true ∧
      ∃ m target, (sendAsconf env assoc tokens remote).2 = some (m, target) ∧
        (asconfChunksOf m).length = 1) := by
  constructor
  · intro h
    unfold sendAsconf
    rw [h]
    simp
  · intro h
    unfold sendAsconf
    rw [h]
    rw [if_pos rfl]
    refine ⟨rfl, _, _, rfl, ?_⟩
    rw [asconfChunksOf_authPrefix]
    rfl

/-- C4: every parameter sendAsconf builds carries a correlation id obtained
by incrementing corrIdNum, so within the built chunk the correlation ids are
strictly increasing in build order, every one of them lies strictly above
the corrIdNum the association started with and at most at the corrIdNum it
ends with, and the final corrIdNum is the initial one plus the number of
parameters built — which makes correlation ids across successive sendAsconf
calls of one association pairwise distinct. -/
theorem sendAsconf_correlation_ids (env : SCTPEnv) (assoc : SCTPAssociation)
    (tokens : List Int) (remote : Bool)
    (h : assoc.state.asconfOutstanding = false) :
    ∃ ch, (sendAsconf env assoc tokens remote).1.state.asconfChunk = some ch ∧
      (ch.params.map fun p => p.requestCorrelationId).Pairwise (· < ·) ∧
      (∀ p ∈ ch.params,
        assoc.state.corrIdNum < p.requestCorrelationId ∧
        p.requestCorrelationId
          ≤ (sendAsconf env assoc tokens remote).1.state.corrIdNum) ∧
      (sendAsconf env assoc tokens remote).1.state.corrIdNum
        = assoc.state.corrIdNum + ch.params.length := by
  obtain ⟨i1, i2, i3, i4⟩ := asconfLoop_invariant env (natMode env assoc)
    remote assoc.remoteAddr tokens (initialBuild assoc)
  obtain ⟨hpw, hbd⟩ := i4 (by constructor <;> simp [initialBuild])
  refine ⟨builtAsconfChunk env assoc tokens remote, ?_, ?_, ?_, ?_⟩
  · unfold sendAsconf
    rw [h, if_pos rfl]
  · exact hpw
  · intro p hp
    rcases i3 p hp with hmem | ⟨hlt, hle⟩
    · simp [initialBuild] at hmem
    · refine ⟨hlt, ?_⟩
      unfold sendAsconf
      rw [h, if_pos rfl]
      exact hle
  · unfold sendAsconf
    rw [h, if_pos rfl]
    show (asconfLoopResult env assoc tokens remote).corrId
      = assoc.state.corrIdNum
        + (builtAsconfChunk env assoc tokens remote).params.length
    have e1 : asconfLoopResult env assoc tokens remote
        = List.foldl (asconfStep env (natMode env assoc) remote
            assoc.remoteAddr) (initialBuild assoc) tokens := rfl
    have e2 : (builtAsconfChunk env assoc tokens remote).params
        = (asconfLoopResult env assoc tokens remote).params := rfl
    have e3 : (initialBuild assoc).corrId = assoc.state.corrIdNum := rfl
    have e4 : (initialBuild assoc).params.length = 0 := rfl
    rw [e2, e1]
    omega

/-- C7: with a retained last-sent ASCONF chunk, retransmitAsconf transmits a
chunk with the retained chunk's serial number, parameter list (hence
correlation ids) and length, rebuilding nothing, and leaves the whole
association — retained chunk, asconfOutstanding, corrIdNum, asconfSn —
unchanged. -/
theorem retransmitAsconf_verbatim (assoc : SCTPAssociation)
    (c : SCTPAsconfChunk) (h : assoc.state.asconfChunk = some c) :
    (retransmitAsconf assoc).1 = assoc ∧
    ∃ m, (retransmitAsconf assoc).2 = some m ∧
      asconfChunksOf m = [{ c with chunkType := ASCONF }] ∧
      (∀ a ∈ asconfChunksOf m,
        a.serialNumber = c.serialNumber ∧ a.params = c.params ∧
        a.params.map (fun p => p.requestCorrelationId)
          = c.params.map (fun p => p.requestCorrelationId) ∧
        a.bitLength = c.bitLength) ∧
      (retransmitAsconf assoc).1.state.asconfChunk = some c ∧
      (retransmitAsconf assoc).1.state.asconfOutstanding
        = assoc.state.asconfOutstanding ∧
      (retransmitAsconf assoc).1.state.corrIdNum = assoc.state.corrIdNum ∧
      (retransmitAsconf assoc).1.state.asconfSn = assoc.state.asconfSn := by
  have hr : retransmitAsconf assoc =
      (assoc,
       some { srcPort := 0
              destPort := 0
              chunks :=
                (if assoc.state.auth && assoc.state.peerAuth
                 then [SCTPChunk.auth createAuthChunk] else [])
                ++ [SCTPChunk.asconf { c with chunkType := ASCONF }] }) := by
    unfold retransmitAsconf
    rw [h]
  rw [hr]
  refine ⟨rfl, _, rfl, ?_, ?_, h, rfl, rfl, rfl⟩
  · rw [asconfChunksOf_authPrefix]
  · intro a ha
    rw [asconfChunksOf_authPrefix] at ha
    have hac : a = { c with chunkType := ASCONF } := by simpa using ha
    rw [hac]
    exact ⟨rfl, rfl, rfl, rfl⟩

/-- C8: a token whose value is none of ADD_IP_ADDRESS, DELETE_IP_ADDRESS,
SET_PRIMARY_ADDRESS falls through sendAsconf's switch with no effect:
sendAsconf behaves exactly as if the unrecognized tokens were absent, and
(outside the outstanding guard) the chunk is still built and transmitted
with asconfOutstanding raised — with zero parameters when no token is
recognized. -/
theorem sendAsconf_skips_unknown_tokens (env : SCTPEnv)
    (assoc : SCTPAssociation) (tokens : List Int) (remote : Bool) :
    sendAsconf env assoc tokens remote
      = sendAsconf env assoc (tokens.filter isAsconfChangeType) remote ∧
    (assoc.state.asconfOutstanding = false →
      (sendAsconf env assoc tokens remote).1.state.asconfOutstanding = true ∧
      (∃ m target,
        (sendAsconf env assoc tokens remote).2 = some (m, target)) ∧
      ((∀ t ∈ tokens, isAsconfChangeType t = false) →
        ∃ ch,
          (sendAsconf env assoc tokens remote).1.state.asconfChunk = some ch ∧
          ch.params = [])) := by
  constructor
  · unfold sendAsconf
    rw [asconfLoopResult_filter, builtAsconfChunk_filter]
  · intro h
    unfold sendAsconf
    rw [h, if_pos rfl]
    refine ⟨rfl, ⟨_, _, rfl⟩, ?_⟩
    intro hall
    refine ⟨builtAsconfChunk env assoc tokens remote, rfl, ?_⟩
    have hnil : tokens.filter isAsconfChangeType = [] := by
      rw [List.filter_eq_nil_iff]
      intro t ht
      rw [hall t ht]
      exact Bool.false_ne_true
    unfold builtAsconfChunk
    rw [asconfLoopResult_filter, hnil]
    rfl

/-- A concrete collaborator environment for the witnesses. -/
def envW : SCTPEnv :=
  { getLevel := fun _ => 0
    natFriendly := false
    addAddress := { host := 5, v6 := false }
    nextAddressOnPath := { host := 6, v6 := false } }

/-- A concrete association with no ASCONF outstanding. -/
def assocIdle : SCTPAssociation :=
  { localAddr := { host := 1, v6 := false }
    remoteAddr := { host := 2, v6 := false }
    localPort := 100
    remotePort := 200
    peerVTagValue := 7
    state := baseState }

/-- assocIdle with an ASCONF already outstanding. -/
def assocBusy : SCTPAssociation :=
  { assocIdle with state := { baseState with asconfOutstanding := true } }

/-- A concrete retained last-sent ASCONF chunk. -/
def retainedChunk : SCTPAsconfChunk :=
  { chunkType := ASCONF
    serialNumber := 42
    addressParam := { host := 1, v6 := false }
    peerVTag := none
    params := [{ parameterType := ADD_IP_ADDRESS
                 requestCorrelationId := 3
                 addressParam := { host := 5, v6 := false }
                 bitLength := 128 }]
    bitLength := 256 }

/-- assocIdle holding retainedChunk as its last-sent ASCONF chunk. -/
def assocRetained : SCTPAssociation :=
  { assocIdle with state := { baseState with asconfChunk := some retainedChunk } }

/-- Witness for C2: a busy association ignores sendAsconf; an idle one
transmits one ASCONF chunk and raises the flag. -/
theorem sendAsconf_mutual_exclusion_witness :
    sendAsconf envW assocBusy [ADD_IP_ADDRESS] false = (assocBusy, none) ∧
    ((sendAsconf envW assocIdle [ADD_IP_ADDRESS]
        false).1.state.asconfOutstanding = true ∧
     ∃ m target,
       (sendAsconf envW assocIdle [ADD_IP_ADDRESS] false).2
         = some (m, target) ∧
       (asconfChunksOf m).length = 1) :=
  ⟨(sendAsconf_mutual_exclusion envW assocBusy [ADD_IP_ADDRESS] false).1 rfl,
   (sendAsconf_mutual_exclusion envW assocIdle [ADD_IP_ADDRESS] false).2 rfl⟩

/-- Witness for C4 at a concrete two-token call. -/
theorem sendAsconf_correlation_ids_witness :
    ∃ ch, (sendAsconf envW assocIdle [ADD_IP_ADDRESS, DELETE_IP_ADDRESS]
        false).1.state.asconfChunk = some ch ∧
      (ch.params.map fun p => p.requestCorrelationId).Pairwise (· < ·) ∧
      (∀ p ∈ ch.params,
        assocIdle.state.corrIdNum < p.requestCorrelationId ∧
        p.requestCorrelationId
          ≤ (sendAsconf envW assocIdle [ADD_IP_ADDRESS, DELETE_IP_ADDRESS]
              false).1.state.corrIdNum) ∧
      (sendAsconf envW assocIdle [ADD_IP_ADDRESS, DELETE_IP_ADDRESS]
          false).1.state.corrIdNum
        = assocIdle.state.corrIdNum + ch.params.length :=
  sendAsconf_correlation_ids envW assocIdle
    [ADD_IP_ADDRESS, DELETE_IP_ADDRESS] false rfl

/-- Witness for C7 at a concrete retained chunk. -/
theorem retransmitAsconf_verbatim_witness :
    (retransmitAsconf assocRetained).1 = assocRetained ∧
    ∃ m, (retransmitAsconf assocRetained).2 = some m ∧
      asconfChunksOf m = [{ retainedChunk with chunkType := ASCONF }] ∧
      (∀ a ∈ asconfChunksOf m,
        a.serialNumber = retainedChunk.serialNumber ∧
        a.params = retainedChunk.params ∧
        a.params.map (fun p => p.requestCorrelationId)
          = retainedChunk.params.map (fun p => p.requestCorrelationId) ∧
        a.bitLength = retainedChunk.bitLength) ∧
      (retransmitAsconf assocRetained).1.state.asconfChunk
        = some retainedChunk ∧
      (retransmitAsconf assocRetained).1.state.asconfOutstanding
        = assocRetained.state.asconfOutstanding ∧
      (retransmitAsconf assocRetained).1.state.corrIdNum
        = assocRetained.state.corrIdNum ∧
      (retransmitAsconf assocRetained).1.state.asconfSn
        = assocRetained.state.asconfSn :=
  retransmitAsconf_verbatim assocRetained retainedChunk rfl

/-- Witness for C8: two unrecognized tokens (7 and -1) are skipped; the
chunk is still transmitted, with zero parameters, and the flag raised. -/
theorem sendAsconf_skips_unknown_tokens_witness :
    sendAsconf envW assocIdle [7, -1] false
      = sendAsconf envW assocIdle
          (([7, -1] : List Int).filter isAsconfChangeType) false ∧
    (sendAsconf envW assocIdle [7, -1] false).1.state.asconfOutstanding
      = true ∧
    (∃ m target,
      (sendAsconf envW assocIdle [7, -1] false).2 = some (m, target)) ∧
    ∃ ch, (sendAsconf envW assocIdle [7, -1] false).1.state.asconfChunk
        = some ch ∧ ch.params = [] := by
  have h := sendAsconf_skips_unknown_tokens envW assocIdle [7, -1] false
  have h2 := h.2 rfl
  exact ⟨h.1, h2.1, h2.2.1, h2.2.2 (by decide)⟩

end Inet
